import Mathlib

/-!
Verification of the LANv2 LIFX client (node-xlif).

The development shallowly embeds the LAN client module: the global sequence
counter (`nextByteValue`), the binary message encoder (`createMessage` and its
byte-twiddling steps), the lodash throttle wrapping the socket send, the
promise flow of `Client#discover` / `Client#send`, and `Client.create` with
its port validation and constructor.

Buffers are `List Nat` of byte values; writing into a Buffer truncates the
value modulo 256, as JS `Buffer` element assignment does.
-/

namespace Xlif

/-- Errors surfaced by the embedded code: `TypeError` and plain `Error`
values thrown or passed to callbacks, identified by their message. -/
inductive Err : Type where
  | typeError (msg : String)
  | error (msg : String)
deriving DecidableEq, Repr

/-- A JavaScript value as it can reach `Buffer.concat`: a single Buffer,
an Array of Buffers, or `undefined` (the payload in `discover`). -/
inductive JSVal : Type where
  | buf (bytes : List Nat)
  | arr (bufs : List (List Nat))
  | undef
deriving DecidableEq, Repr

/-- Node `Buffer.concat(list, totalLength?)`: the first argument must be an
Array of Buffers, otherwise a `TypeError` is thrown.  Further arguments
beyond the optional `totalLength` are ignored by JS calling convention. -/
def bufferConcat (list : JSVal) (_extra : List JSVal) : Except Err (List Nat) :=
  match list with
  | JSVal.arr bufs => Except.ok bufs.flatten
  | _ => Except.error (Err.typeError "list argument must be an Array of Buffers")

/-- Buffer element assignment `m[i] = v`: stores `v` truncated to a byte. -/
def bset (m : List Nat) (i v : Nat) : List Nat := m.set i (v % 256)

/-- Node `Buffer#fill(src, start, end)` with a Buffer source: fills the index
range cyclically with the source bytes (source bytes are already `< 256`). -/
def bfill (m src : List Nat) (start stop : Nat) : List Nat :=
  (List.range (stop - start)).foldl
    (fun acc i => acc.set (start + i) (src.getD (i % src.length) 0)) m

/-- Lines 12-14: `nextByteValue = number => (number + 1) % 0x100`. -/
def nextByteValue (number : Nat) : Nat := (number + 1) % 0x100

/-- The process-wide counter `nextByte.value` after `n` calls of `nextByte`,
starting from its initial value 0 (`Object.assign(nextByte, { value: 0 })`).
Each call assigns and returns `nextByteValue` of the previous value, so the
value after `n` calls is also the value returned by the `n`-th call. -/
def seqAfter : Nat → Nat
  | 0 => 0
  | n + 1 => nextByteValue (seqAfter n)

/-- The threezeroed buffers of `createMessage` concatenated with the payload:
`Buffer.alloc(8)` (frame) ++ `Buffer.alloc(16)` (address) ++
`Buffer.alloc(12)` (header) ++ payload. -/
def concatIntended (payload : List Nat) : List Nat :=
  List.replicate 8 0 ++ List.replicate 16 0 ++ List.replicate 12 0 ++ payload

/-- Lines 47-53 of `createMessage`, operating on the concatenated message:
write the big-endian total length into bytes 0-1, the constant
origin/tagged/addressable/protocol byte `0b00010100` into byte 2, fill
bytes 4-7 with the client nonce, and stamp the sequence byte at offset 23. -/
def assembleSteps (nonce : List Nat) (seq : Nat) (message : List Nat) : List Nat :=
  let m := bset message 0 ((message.length &&& 0xFF00) >>> 8)
  let m := bset m 1 ((message.length &&& 0x00FF) >>> 0)
  let m := bset m 2 0b00010100
  let m := bfill m nonce 4 8
  let m := bset m 23 seq
  m

/-- Lines 17-56, `createMessage(client, payload)`, as written: the message is
produced by `Buffer.concat(frame, address, header, payload)` — four separate
buffer arguments, not an array — then checked against the 65535-byte limit
and assembled.  `seq` is the value returned by the `nextByte()` call. -/
def createMessage (nonce payload : List Nat) (seq : Nat) : Except Err (List Nat) :=
  match bufferConcat (JSVal.buf (List.replicate 8 0))
      [JSVal.buf (List.replicate 16 0), JSVal.buf (List.replicate 12 0), JSVal.buf payload] with
  | Except.error e => Except.error e
  | Except.ok message =>
    if message.length > 65535 then Except.error (Err.error "over 4KB limit")
    else Except.ok (assembleSteps nonce seq message)

/-- The evident intent of line 45 (`Buffer.concat` applied to the Array of the
four buffers), kept alongside the faithful `createMessage` so the size check
and frame layout of lines 46-53 can be stated: same buffers, same limit,
same assembly steps. -/
def createMessageFixed (nonce payload : List Nat) (seq : Nat) : Except Err (List Nat) :=
  let message := concatIntended payload
  if message.length > 65535 then Except.error (Err.error "over 4KB limit")
  else Except.ok (assembleSteps nonce seq message)

/-- Buffer element OR-assignment `m[i] |= v`. -/
def orAt (m : List Nat) (i v : Nat) : List Nat := m.set i ((m.getD i 0 ||| v) % 256)

/-- Lines 129-130 of `Client#discover`: `message[2] |= 0b00100000` (discovery
tag) and `message[22] |= 0b00000011` (ack/res tags). -/
def discoverTag (m : List Nat) : List Nat :=
  orAt (orAt m 2 0b00100000) 22 0b00000011

/-- Default listening window of `Client#discover` and `Client#send`:
`discover (timeout = 1000, port = 56700)`, `send (timeout = 1000, payload)`. -/
def defaultTimeout : Nat := 1000

/-- Default port of `Client#discover` and `Client.create`: 56700. -/
def defaultPort : Nat := 56700

/-- Observable behaviour of one `discover`/`send` invocation (lines 115-157):
whether the message listener was attached, whether the transport send was
invoked, whether the listener was removed again, the settled promise value,
and the time (ms from the call) at which the promise settles. -/
structure ExchangeRun (μ : Type) : Type where
  listenerAttached : Bool
  sendAttempted : Bool
  listenerRemoved : Bool
  outcome : Except Err (List μ)
  settleTime : Nat
deriving Repr

/-- The promise flow of `Client#discover` / `Client#send` (lines 117-135 and
140-156).  `socket.on` with the `consume` listener runs first, then the
`trigger()` call: if `createMessage` throws, the executor rejects
synchronously (settle time 0) and the listener is never removed; if the
transport send fails, `reject` runs when the send settles and the listener
is never removed; if the send succeeds, `setTimeout(cleanup, timeout)`
removes the listener and resolves with every datagram consumed while the
listener was attached (arrival time before the cleanup moment), unfiltered. -/
def runExchange (frameResult : Except Err (List Nat)) (sendResult : Except Err Unit)
    (sendSettleTime timeout : Nat) (inbound : List (Nat × μ)) : ExchangeRun μ :=
  match frameResult with
  | Except.error e => ⟨true, false, false, Except.error e, 0⟩
  | Except.ok _ =>
    match sendResult with
    | Except.error e => ⟨true, true, false, Except.error e, sendSettleTime⟩
    | Except.ok _ =>
      ⟨true, true, true,
        Except.ok ((inbound.filter (fun p => decide (p.1 < sendSettleTime + timeout))).map Prod.snd),
        sendSettleTime + timeout⟩

/-- A JavaScript number as passed for `port`: an integer or a non-integer
number (`Number.isInteger` distinguishes the two). -/
inductive JSNum : Type where
  | int (n : Int)
  | notAnInt
deriving DecidableEq, Repr

/-- JS `Number.isInteger(port)`. -/
def isInteger : JSNum → Bool
  | JSNum.int _ => true
  | JSNum.notAnInt => false

/-- JS `port < 0` on an integer number (the non-integer branch is
unreachable: the validation short-circuits on the `isInteger` test). -/
def portNeg : JSNum → Bool
  | JSNum.int n => decide (n < 0)
  | JSNum.notAnInt => false

/-- JS `port > 65535` on an integer number. -/
def portHigh : JSNum → Bool
  | JSNum.int n => decide (n > 65535)
  | JSNum.notAnInt => false

/-- How one `Client.create` call can end (lines 92-104): the executor throws
the validation `TypeError` (the promise rejects before the bind), the bind
callback reports an error, the `Client` constructor throws inside the bind
callback (so neither `resolve` nor `reject` ever runs and the promise never
settles), or the `resolve` call fulfills with the new instance. -/
inductive CreateOutcome : Type where
  | rejectedValidation (e : Err)
  | rejectedBind (e : Err)
  | constructorThrew (e : Err)
  | fulfilled
deriving DecidableEq, Repr

/-- Result of a `Client.create` call: whether the bind (the only I/O) was
reached, and how the call ended. -/
structure CreateRun : Type where
  bindAttempted : Bool
  outcome : CreateOutcome
deriving DecidableEq, Repr

/-- JS `Object.freeze` applied to a typed-array view (a `Buffer`): per the
`SetIntegrityLevel` semantics, freezing an integer-indexed exotic object
with elements throws a `TypeError`; only an empty view can be frozen. -/
def objectFreeze (bytes : List Nat) : Except Err (List Nat) :=
  if bytes.length = 0 then Except.ok bytes
  else Except.error (Err.typeError "Cannot freeze array buffer views with elements")

/-- Lines 8-9: `nonceBytes(length = 4)` builds `length` random bytes, each
`Math.floor(r * 0x100)` of a fresh `Math.random()` draw; the draws are
abstracted as the stream `rand`. -/
def nonceBytes (length : Nat) (rand : Nat → Nat) : List Nat :=
  (List.range length).map (fun i => rand i % 0x100)

/-- Lines 66-90, the `Client` constructor, restricted to its only fallible
step: the `Object.freeze` of the fresh 4-byte nonce buffer on line 84.  The
listener wiring before it has no failure mode; the property definitions and
the freeze of `this` after it run only if line 84 returns. -/
def clientConstructor (nonce : List Nat) : Except Err Unit :=
  match objectFreeze nonce with
  | Except.error e => Except.error e
  | Except.ok _ => Except.ok ()

/-- Lines 92-104, `Client.create`: validate the port inside the promise
executor (throwing a `TypeError` there rejects the promise before any I/O),
then bind; the bind callback rejects on a bind error, else resolves with
`new Client`, whose constructor may throw.  `bindError` is the outcome the
socket reports to the bind callback. -/
def clientCreate (port : JSNum) (bindError : Option Err) (nonce : List Nat) : CreateRun :=
  if !isInteger port || portNeg port || portHigh port then
    ⟨false, CreateOutcome.rejectedValidation (Err.typeError "port must be a valid 16-bit integer")⟩
  else
    match bindError with
    | some e => ⟨true, CreateOutcome.rejectedBind e⟩
    | none =>
      match clientConstructor nonce with
      | Except.error e => ⟨true, CreateOutcome.constructorThrew e⟩
      | Except.ok _ => ⟨true, CreateOutcome.fulfilled⟩

/-- Line 62: `const send = _.throttle(sendPromise, 50)` — the throttle wait
in milliseconds. -/
def sendWaitMs : Nat := 50

/-- State of the lodash v4 throttle (`_.throttle(f, wait)` is
`_.debounce(f, wait, { leading: true, maxWait: wait, trailing: true })`):
the time of the last call, the time of the last invocation of the wrapped
function, the pending (most recent) call arguments, the pending timer
expiry, and the invocations of the wrapped function so far (each invocation
of `sendPromise` hands the frame to the socket at that moment). -/
structure ThrottleState (α : Type) : Type where
  lastCallTime : Option Nat
  lastInvokeTime : Nat
  lastArgs : Option α
  timerExpiry : Option Nat
  invocations : List (Nat × α)
deriving DecidableEq, Repr

/-- Initial throttle state: no call yet, last-invoke time 0, nothing
pending. -/
def throttleInit : ThrottleState α := ⟨none, 0, none, none, []⟩

/-- lodash `shouldInvoke(time)` with `maxing = true` and `maxWait = wait`:
first call ever, or the wait elapsed since the last call, or the wait
elapsed since the last invocation.  (The system-clock-went-backwards
disjunct cannot fire: events are processed in time order over `Nat`.) -/
def shouldInvoke (wait time : Nat) (s : ThrottleState α) : Bool :=
  match s.lastCallTime with
  | none => true
  | some lct => decide (wait ≤ time - lct) || decide (wait ≤ time - s.lastInvokeTime)

/-- lodash `invokeFunc(time)`: record the invocation with the pending
arguments, clear them, and remember the invocation time. -/
def invokeFunc (time : Nat) (s : ThrottleState α) : ThrottleState α :=
  match s.lastArgs with
  | some a =>
      { s with lastInvokeTime := time, lastArgs := none,
               invocations := s.invocations ++ [(time, a)] }
  | none => { s with lastInvokeTime := time }

/-- lodash `remainingWait(time)` with `maxing = true`. -/
def remainingWait (wait time : Nat) (s : ThrottleState α) : Nat :=
  min (wait - (time - (s.lastCallTime.getD 0))) (wait - (time - s.lastInvokeTime))

/-- lodash `timerExpired` running at the timer's expiry `time`: on
`shouldInvoke`, take the trailing edge (clear the timer; invoke with the
pending arguments if any); otherwise restart the timer for the remaining
wait. -/
def timerExpired (wait time : Nat) (s : ThrottleState α) : ThrottleState α :=
  if shouldInvoke wait time s then
    let s := { s with timerExpiry := none }
    match s.lastArgs with
    | some _ => invokeFunc time s
    | none => { s with lastArgs := none }
  else
    { s with timerExpiry := some (time + remainingWait wait time s) }

/-- lodash `debounced(...args)` called at `time`: store the call time and
arguments; on `shouldInvoke` take the leading edge when no timer is pending
(start the timer, invoke now) or the maxing edge when one is (restart the
timer, invoke now); otherwise make sure a timer is pending. -/
def debouncedCall (wait time : Nat) (args : α) (s : ThrottleState α) : ThrottleState α :=
  let isInvoking := shouldInvoke wait time s
  let s := { s with lastArgs := some args, lastCallTime := some time }
  if isInvoking then
    match s.timerExpiry with
    | none => invokeFunc time { s with timerExpiry := some (time + wait) }
    | some _ => invokeFunc time { s with timerExpiry := some (time + wait) }
  else
    match s.timerExpiry with
    | none => { s with timerExpiry := some (time + wait) }
    | some _ => s

/-- Fire every pending timer whose expiry is at or before `t` (the timer
callback runs before a call happening at the same millisecond); `fuel`
bounds the iteration. -/
def fireTimersUpTo (wait : Nat) : Nat → Nat → ThrottleState α → ThrottleState α
  | 0, _, s => s
  | fuel + 1, t, s =>
    match s.timerExpiry with
    | some e => if e ≤ t then fireTimersUpTo wait fuel t (timerExpired wait e s) else s
    | none => s

/-- Fire every remaining pending timer at its expiry, `fuel`-bounded. -/
def flushTimers (wait : Nat) : Nat → ThrottleState α → ThrottleState α
  | 0, s => s
  | fuel + 1, s =>
    match s.timerExpiry with
    | some e => flushTimers wait fuel (timerExpired wait e s)
    | none => s

/-- Run the throttled `send` over a time-ordered list of calls
`(time, args)`: before each call fire the timers due by then, process the
call, and after the last call let the pending timer run out.  The result's
`invocations` are the actual socket transmissions. -/
def runThrottle (wait : Nat) (calls : List (Nat × α)) : ThrottleState α :=
  flushTimers wait (calls.length + 2)
    (calls.foldl
      (fun s c => debouncedCall wait c.1 c.2 (fireTimersUpTo wait (calls.length + 2) c.1 s))
      throttleInit)

/-- Option flags of the encoder as the spec describes them. -/
structure EncodeOptions : Type where
  tagged : Bool
  ackRequired : Bool
  resRequired : Bool
  target : List Nat
deriving DecidableEq, Repr

/-- Modelled from the spec: the encoder signature
`encode(client, messageType, payload, options)` of spec section 4.2 with the
wire layout of section 6 — no such function exists in the source, whose
`createMessage(client, payload)` takes neither a message type nor option
flags.  Kept only to compare the spec's claimed behaviour with the code. -/
def encodeSpec (nonce : List Nat) (messageType : Nat) (payload : List Nat)
    (opts : EncodeOptions) (seq : Nat) : List Nat :=
  let size := 36 + payload.length
  let frameHeader :=
    [size / 256 % 256, size % 256,
     0x10 + (if opts.tagged then 0x20 else 0) + 0x04, 1024 % 256] ++ nonce
  let addressBlock :=
    opts.target ++ [0, 0, 0, 0, 0, 0] ++
    [(if opts.ackRequired then 2 else 0) + (if opts.resRequired then 1 else 0), seq % 256]
  let messageHeader :=
    [0, 0, 0, 0, 0, 0, 0, 0, messageType / 256 % 256, messageType % 256, 0, 0]
  frameHeader ++ addressBlock ++ messageHeader ++ payload

theorem bset_length (m : List Nat) (i v : Nat) : (bset m i v).length = m.length := by
  simp [bset]

theorem foldl_set_length (f : Nat → Nat) (g : Nat → Nat) (l : List Nat) :
    ∀ idx : List Nat, (idx.foldl (fun acc i => acc.set (f i) (g i)) l).length = l.length := by
  intro idx
  induction idx generalizing l with
  | nil => rfl
  | cons i rest ih =>
    show (rest.foldl (fun acc i => acc.set (f i) (g i)) (l.set (f i) (g i))).length = l.length
    rw [ih (l.set (f i) (g i))]
    simp

theorem bfill_length (m src : List Nat) (a b : Nat) : (bfill m src a b).length = m.length := by
  unfold bfill
  exact foldl_set_length _ _ m (List.range (b - a))

theorem concatIntended_length (p : List Nat) : (concatIntended p).length = 36 + p.length := by
  simp [concatIntended]
  omega

theorem getD_bset_self (m : List Nat) (i v : Nat) (h : i < m.length) :
    (bset m i v).getD i 0 = v % 256 := by
  simp [bset, List.getD_eq_getElem?_getD, List.getElem?_set_self h]

theorem assembleSteps_length (nonce : List Nat) (seq : Nat) (message : List Nat) :
    (assembleSteps nonce seq message).length = message.length := by
  unfold assembleSteps
  rw [bset_length, bfill_length, bset_length, bset_length, bset_length]

theorem assembleSteps_explicit (a b c d seq : Nat) (payload : List Nat) :
    assembleSteps [a, b, c, d] seq (concatIntended payload) =
      ((((payload.length + 36) &&& 0xFF00) >>> 8) % 256) ::
      ((((payload.length + 36) &&& 0x00FF) >>> 0) % 256) ::
      20 :: 0 :: a :: b :: c :: d ::
      0 :: 0 :: 0 :: 0 :: 0 :: 0 :: 0 :: 0 :: 0 :: 0 :: 0 :: 0 :: 0 :: 0 :: 0 ::
      (seq % 256) ::
      0 :: 0 :: 0 :: 0 :: 0 :: 0 :: 0 :: 0 :: 0 :: 0 :: 0 :: 0 :: payload := by
  rfl

theorem and_ff00_shiftRight (N : Nat) (h : N < 65536) : (N &&& 0xFF00) >>> 8 = N / 256 := by
  have h256 : N / 256 = N >>> 8 := by
    rw [Nat.shiftRight_eq_div_pow]
  rw [h256]
  apply Nat.eq_of_testBit_eq
  intro i
  rw [Nat.testBit_shiftRight, Nat.testBit_shiftRight, Nat.testBit_and]
  by_cases hi : i < 8
  · have hbit : (0xFF00 : Nat).testBit (8 + i) = true := by
      interval_cases i <;> decide
    rw [hbit, Bool.and_true]
  · have hN : N.testBit (8 + i) = false := by
      apply Nat.testBit_lt_two_pow
      calc N < 65536 := h
        _ = 2 ^ 16 := by norm_num
        _ ≤ 2 ^ (8 + i) := Nat.pow_le_pow_right (by norm_num) (by omega)
    rw [hN, Bool.false_and]

theorem and_ff_eq_mod (N : Nat) : N &&& 0xFF = N % 256 := by
  have h : N &&& 2 ^ 8 - 1 = N % 2 ^ 8 := Nat.and_pow_two_sub_one_eq_mod N 8
  norm_num at h
  exact h

end Xlif

namespace Xlif

/-- Claim C3: the sequence counter is a single process-wide counter (a
property of the module, not of any `Client`: `nextByteValue` and `seqAfter`
take no client), initialized to 0; each call increments it by exactly 1
modulo 256 and the resulting byte is stamped at offset 23 of the frame; it
never resets, and after 256 calls it wraps back to 0. -/
theorem c3_sequence_counter :
    seqAfter 0 = 0
    ∧ (∀ n : Nat, seqAfter (n + 1) = (seqAfter n + 1) % 256)
    ∧ (∀ n : Nat, seqAfter n = n % 256)
    ∧ seqAfter 256 = 0
    ∧ (∀ nonce payload : List Nat, ∀ n : Nat,
        (assembleSteps nonce (seqAfter (n + 1)) (concatIntended payload)).getD 23 0
          = seqAfter (n + 1)) := by
  have hval : ∀ n : Nat, seqAfter n = n % 256 := by
    intro n
    induction n with
    | zero => rfl
    | succ k ih =>
      show nextByteValue (seqAfter k) = (k + 1) % 256
      rw [ih]
      unfold nextByteValue
      omega
  refine ⟨rfl, ?_, hval, by rw [hval], ?_⟩
  · intro n
    show nextByteValue (seqAfter n) = (seqAfter n + 1) % 256
    rfl
  · intro nonce payload n
    have hlt : seqAfter (n + 1) < 256 := by
      rw [hval]; exact Nat.mod_lt _ (by norm_num)
    have hmod : seqAfter (n + 1) % 256 = seqAfter (n + 1) := Nat.mod_eq_of_lt hlt
    -- byte 23 is the last write of `assembleSteps`; index 23 is within the
    -- 36-byte fixed prefix of the concatenated message
    show (bset (bfill (bset (bset (bset (concatIntended payload) 0
        (((concatIntended payload).length &&& 0xFF00) >>> 8)) 1
        (((concatIntended payload).length &&& 0x00FF) >>> 0)) 2 0b00010100)
        nonce 4 8) 23 (seqAfter (n + 1))).getD 23 0 = seqAfter (n + 1)
    rw [getD_bset_self _ _ _ (by
      rw [bfill_length, bset_length, bset_length, bset_length, concatIntended_length]
      omega)]
    exact hmod

/-- Claim C4: in every frame built by `createMessage`, bytes 0-1 hold the
total message length as a big-endian uint16; byte 2 holds origin 0 (top two
bits), addressable 1 (bit 4) and the protocol-1024 high nibble, i.e. the
value 0x14, with the tagged bit 0x20 OR-ed in exactly when the frame is
built by `discover`; bytes 4-7 hold the client's 4-byte nonce; the sequence
byte sits at overall offset 23; a discovery frame has its tagged and ack/res
bits set and a plain send frame does not have the tagged bit set. -/
theorem c4_frame_layout (a b c d seq : Nat) (payload : List Nat) (m : List Nat)
    (hm : m = assembleSteps [a, b, c, d] seq (concatIntended payload))
    (hL : payload.length ≤ 65499) (hseq : seq < 256) :
    256 * m.getD 0 0 + m.getD 1 0 = m.length
    ∧ m.length = 36 + payload.length
    ∧ m.getD 2 0 = 0x14
    ∧ 0x14 >>> 6 = 0
    ∧ (0x14 >>> 4) &&& 1 = 1
    ∧ 0x14 &&& 0xF = 1024 >>> 8
    ∧ m.getD 2 0 &&& 0x20 = 0
    ∧ (m.drop 4).take 4 = [a, b, c, d]
    ∧ m.getD 23 0 = seq
    ∧ (discoverTag m).getD 2 0 = (0x14 ||| 0x20)
    ∧ (discoverTag m).getD 2 0 &&& 0x20 = 0x20
    ∧ (discoverTag m).getD 22 0 = 0b00000011
    ∧ (discoverTag m).getD 22 0 &&& 0b00000011 = 0b00000011 := by
  subst hm
  rw [assembleSteps_explicit]
  have h16 : payload.length + 36 < 65536 := by omega
  refine ⟨?_, ?_, by simp, by decide, by decide, by decide, by
      simp
      rfl,
    rfl, ?_,
    by simp [discoverTag, orAt], by
      simp [discoverTag, orAt]
      rfl,
    by simp [discoverTag, orAt], by simp [discoverTag, orAt]⟩
  · rw [and_ff00_shiftRight _ h16, Nat.shiftRight_zero, and_ff_eq_mod]
    simp
    omega
  · simp
    omega
  · exact Nat.mod_eq_of_lt hseq

/-- Claim C4 witness: the layout at a concrete nonce, empty payload and
sequence byte 7. -/
theorem c4_frame_layout_witness :
    ([] : List Nat).length ≤ 65499 ∧ 7 < 256
    ∧ (256 * (assembleSteps [1, 2, 3, 4] 7 (concatIntended [])).getD 0 0
          + (assembleSteps [1, 2, 3, 4] 7 (concatIntended [])).getD 1 0
        = (assembleSteps [1, 2, 3, 4] 7 (concatIntended [])).length
      ∧ (assembleSteps [1, 2, 3, 4] 7 (concatIntended [])).length = 36 + ([] : List Nat).length
      ∧ (assembleSteps [1, 2, 3, 4] 7 (concatIntended [])).getD 2 0 = 0x14
      ∧ 0x14 >>> 6 = 0
      ∧ (0x14 >>> 4) &&& 1 = 1
      ∧ 0x14 &&& 0xF = 1024 >>> 8
      ∧ (assembleSteps [1, 2, 3, 4] 7 (concatIntended [])).getD 2 0 &&& 0x20 = 0
      ∧ ((assembleSteps [1, 2, 3, 4] 7 (concatIntended [])).drop 4).take 4 = [1, 2, 3, 4]
      ∧ (assembleSteps [1, 2, 3, 4] 7 (concatIntended [])).getD 23 0 = 7
      ∧ (discoverTag (assembleSteps [1, 2, 3, 4] 7 (concatIntended []))).getD 2 0 = (0x14 ||| 0x20)
      ∧ (discoverTag (assembleSteps [1, 2, 3, 4] 7 (concatIntended []))).getD 2 0 &&& 0x20 = 0x20
      ∧ (discoverTag (assembleSteps [1, 2, 3, 4] 7 (concatIntended []))).getD 22 0 = 0b00000011
      ∧ (discoverTag (assembleSteps [1, 2, 3, 4] 7 (concatIntended []))).getD 22 0 &&& 0b00000011
          = 0b00000011) :=
  ⟨by decide, by decide,
    c4_frame_layout 1 2 3 4 7 [] (assembleSteps [1, 2, 3, 4] 7 (concatIntended []))
      rfl (by decide) (by decide)⟩

/-- Every 4-byte nonce the constructor builds makes its `Object.freeze`
throw: the buffer has four elements, and a typed-array view with elements
cannot be frozen. -/
theorem clientConstructor_freeze_throws (rand : Nat → Nat) :
    clientConstructor (nonceBytes 4 rand)
      = Except.error (Err.typeError "Cannot freeze array buffer views with elements") := rfl

/-- Claim C2 (code bug): at a payload whose frame totals 65536 bytes, the
code as written throws the `Buffer.concat` TypeError (line 45) before the
65535-byte size check (line 46) is reached, so the oversized-message error
is never raised; with the concatenation done as evidently intended, the
same input fails the size check and no send is attempted. -/
theorem c2_oversize_check_unreachable :
    createMessage [1, 2, 3, 4] (List.replicate 65500 0) 1
        = Except.error (Err.typeError "list argument must be an Array of Buffers")
    ∧ createMessageFixed [1, 2, 3, 4] (List.replicate 65500 0) 1
        = Except.error (Err.error "over 4KB limit")
    ∧ (runExchange (createMessageFixed [1, 2, 3, 4] (List.replicate 65500 0) 1)
        (Except.ok ()) 0 defaultTimeout ([] : List (Nat × Nat))).sendAttempted = false := by
  have hlen : (concatIntended (List.replicate 65500 0)).length > 65535 := by
    rw [concatIntended_length, List.length_replicate]
    norm_num
  have hfix : createMessageFixed [1, 2, 3, 4] (List.replicate 65500 0) 1
      = Except.error (Err.error "over 4KB limit") := by
    unfold createMessageFixed
    rw [if_pos hlen]
  refine ⟨rfl, hfix, ?_⟩
  rw [hfix]
  rfl

/-- Claim C9: `createMessage` passes `Buffer.concat` four separate buffers
rather than one array, so every call throws the `TypeError` before the size
check is reached; no frame is ever produced, and in the `discover`/`send`
flow the transport send is never attempted. -/
theorem c9_concat_always_type_error (nonce payload : List Nat) (seq : Nat)
    (sendResult : Except Err Unit) (st t : Nat) (inbound : List (Nat × Nat)) :
    createMessage nonce payload seq
        = Except.error (Err.typeError "list argument must be an Array of Buffers")
    ∧ (∀ frame : List Nat, createMessage nonce payload seq ≠ Except.ok frame)
    ∧ (runExchange (createMessage nonce payload seq) sendResult st t inbound).sendAttempted
        = false := by
  refine ⟨rfl, ?_, rfl⟩
  intro frame h
  simp [createMessage, bufferConcat] at h

/-- Claim C5 counterexample: an invocation whose transport send fails has
its message listener attached all the same — `socket.on` with `consume`
(line 133/line 154) runs before `trigger()` — and the listener is never
removed on that path, contradicting that no listener is ever attached. -/
theorem c5_listener_attached_on_send_failure :
    (runExchange (Except.ok (assembleSteps [1, 2, 3, 4] 1 (concatIntended [])))
        (Except.error (Err.error "simulated socket error")) 0 200
        ([] : List (Nat × Nat))).listenerAttached = true
    ∧ (runExchange (Except.ok (assembleSteps [1, 2, 3, 4] 1 (concatIntended [])))
        (Except.error (Err.error "simulated socket error")) 0 200
        ([] : List (Nat × Nat))).listenerRemoved = false :=
  ⟨rfl, rfl⟩

/-- Claim C5 amended: when the transport send fails, the returned promise
rejects with the transport error as soon as the send settles — without
waiting out the timeout window — but a message listener has already been
attached to the socket before the send and is never removed on this path. -/
theorem c5_amended_reject_immediately (frame : List Nat) (e : Err)
    (st t : Nat) (inbound : List (Nat × Nat)) :
    runExchange (Except.ok frame) (Except.error e) st t inbound
      = ⟨true, true, false, Except.error e, st⟩ := rfl

/-- Claim C6: when the transport send succeeds, every datagram received
while the listener is attached is appended unfiltered — only its arrival
time within the window matters, never its content or origin — and once the
timeout (default 1000ms) elapses, the call resolves with exactly that list,
possibly empty, and never rejects. -/
theorem c6_resolves_with_all_datagrams {μ : Type} (frame : List Nat) (st t : Nat)
    (inbound : List (Nat × μ)) (hall : ∀ p ∈ inbound, p.1 < st + t) :
    (runExchange (Except.ok frame) (Except.ok ()) st t inbound).outcome
        = Except.ok (inbound.map Prod.snd)
    ∧ (∀ e : Err,
        (runExchange (Except.ok frame) (Except.ok ()) st t inbound).outcome ≠ Except.error e)
    ∧ (runExchange (Except.ok frame) (Except.ok ()) st t inbound).listenerRemoved = true
    ∧ (runExchange (Except.ok frame) (Except.ok ()) st t inbound).settleTime = st + t
    ∧ (runExchange (Except.ok frame) (Except.ok ()) st t ([] : List (Nat × μ))).outcome
        = Except.ok ([] : List μ)
    ∧ defaultTimeout = 1000 := by
  have hfull : inbound.filter (fun p => decide (p.1 < st + t)) = inbound := by
    rw [List.filter_eq_self]
    intro p hp
    exact decide_eq_true (hall p hp)
  have h1 : (runExchange (Except.ok frame) (Except.ok ()) st t inbound).outcome
      = Except.ok (inbound.map Prod.snd) := by
    show Except.ok ((inbound.filter (fun p => decide (p.1 < st + t))).map Prod.snd)
      = Except.ok (inbound.map Prod.snd)
    rw [hfull]
  refine ⟨h1, ?_, rfl, rfl, rfl, rfl⟩
  intro e he
  rw [h1] at he
  exact Except.noConfusion he

/-- Claim C6 witness: a send settling at 0ms with a 1000ms window and one
datagram arriving at 5ms. -/
theorem c6_resolves_with_all_datagrams_witness :
    (∀ p ∈ [((5 : Nat), (9 : Nat))], p.1 < 0 + 1000)
    ∧ ((runExchange (Except.ok []) (Except.ok ()) 0 1000 [((5 : Nat), (9 : Nat))]).outcome
          = Except.ok ([(5, 9)].map Prod.snd)
      ∧ (∀ e : Err,
          (runExchange (Except.ok []) (Except.ok ()) 0 1000
            [((5 : Nat), (9 : Nat))]).outcome ≠ Except.error e)
      ∧ (runExchange (Except.ok []) (Except.ok ()) 0 1000
          [((5 : Nat), (9 : Nat))]).listenerRemoved = true
      ∧ (runExchange (Except.ok []) (Except.ok ()) 0 1000
          [((5 : Nat), (9 : Nat))]).settleTime = 0 + 1000
      ∧ (runExchange (Except.ok []) (Except.ok ()) 0 1000
          ([] : List (Nat × Nat))).outcome = Except.ok ([] : List Nat)
      ∧ defaultTimeout = 1000) :=
  ⟨by decide,
    c6_resolves_with_all_datagrams [] 0 1000 [((5 : Nat), (9 : Nat))] (by decide)⟩

/-- Claim C7 (code bug): at the valid default port 56700 with a successful
bind, `Client.create` reaches `new Client`, whose constructor throws the
TypeError from freezing the non-empty nonce buffer inside the bind
callback, so the promise never fulfills with a Client — against the claim
and the repository's own test, which expects `Client.create()` to resolve
with a `Client` instance.  Out-of-range or non-integer ports are indeed
rejected with the validation TypeError before the bind. -/
theorem c7_create_never_fulfills_eval :
    (clientCreate (JSNum.int 56700) none (nonceBytes 4 (fun _ => 0))).outcome
        = CreateOutcome.constructorThrew
            (Err.typeError "Cannot freeze array buffer views with elements")
    ∧ (clientCreate (JSNum.int 56700) none (nonceBytes 4 (fun _ => 0))).outcome
        ≠ CreateOutcome.fulfilled
    ∧ clientCreate (JSNum.int 65536) none (nonceBytes 4 (fun _ => 0))
        = ⟨false, CreateOutcome.rejectedValidation
            (Err.typeError "port must be a valid 16-bit integer")⟩
    ∧ clientCreate (JSNum.int (-1)) none (nonceBytes 4 (fun _ => 0))
        = ⟨false, CreateOutcome.rejectedValidation
            (Err.typeError "port must be a valid 16-bit integer")⟩
    ∧ clientCreate JSNum.notAnInt none (nonceBytes 4 (fun _ => 0))
        = ⟨false, CreateOutcome.rejectedValidation
            (Err.typeError "port must be a valid 16-bit integer")⟩
    ∧ (∀ bindError : Option Err, ∀ rand : Nat → Nat,
        (clientCreate (JSNum.int 56700) bindError (nonceBytes 4 rand)).outcome
          ≠ CreateOutcome.fulfilled) := by
  refine ⟨by decide, by decide, by decide, by decide, by decide, ?_⟩
  intro bindError rand
  cases bindError with
  | some e => simp [clientCreate, isInteger, portNeg, portHigh]
  | none =>
    simp [clientCreate, isInteger, portNeg, portHigh, clientConstructor_freeze_throws rand]

/-- Claim C10: for every randomness draw, the constructor applies
`Object.freeze` to the freshly created non-empty 4-byte nonce buffer, which
throws a TypeError, so the constructor never completes — and consequently
`Client.create` never fulfills with a Client instance, for any port and any
bind outcome. -/
theorem c10_freeze_nonce_throws (rand : Nat → Nat) (port : JSNum) (bindError : Option Err) :
    (nonceBytes 4 rand).length = 4
    ∧ objectFreeze (nonceBytes 4 rand)
        = Except.error (Err.typeError "Cannot freeze array buffer views with elements")
    ∧ clientConstructor (nonceBytes 4 rand)
        = Except.error (Err.typeError "Cannot freeze array buffer views with elements")
    ∧ (clientCreate port bindError (nonceBytes 4 rand)).outcome ≠ CreateOutcome.fulfilled := by
  refine ⟨rfl, rfl, rfl, ?_⟩
  unfold clientCreate
  cases hb : (!isInteger port || portNeg port || portHigh port) with
  | true => simp [hb]
  | false =>
    simp only [hb, Bool.false_eq_true, if_false]
    cases bindError with
    | some e => simp
    | none => simp [clientConstructor_freeze_throws rand]

/-- Claim C8 counterexample: the code's encoder takes no option flags and
never sets the ack_required/res_required bits — with options requesting
both (an instance of the claim's quantification), the spec-described
encoder puts 3 in byte 22, while the frame the code builds from the same
client nonce, payload and sequence leaves byte 22 at 0. -/
theorem c8_opts_requested_bits_not_set :
    (assembleSteps [1, 2, 3, 4] 5 (concatIntended [])).getD 22 0 = 0
    ∧ (encodeSpec [1, 2, 3, 4] 2 [] ⟨false, true, true, List.replicate 8 0⟩ 5).getD 22 0 = 3
    ∧ (assembleSteps [1, 2, 3, 4] 5 (concatIntended [])).getD 22 0
        ≠ (encodeSpec [1, 2, 3, 4] 2 [] ⟨false, true, true, List.replicate 8 0⟩ 5).getD 22 0 := by
  refine ⟨by decide, by decide, by decide⟩

/-- Claim C8 amended: the encoder accepts neither a message type nor option
flags; in the 16-byte address block it writes only the sequence byte, at
block byte 15 (overall offset 23) — the 8-byte target (block bytes 0-7,
overall 8-15) is left all zero, meaning broadcast to all devices, the
reserved block bytes 8-13 (overall 16-21) are left zero, and the
ack_required/res_required byte (block byte 14, overall offset 22) is left
zero, so those bits are never set by the encoder; only `discover`
unconditionally ORs both bits in afterwards. -/
theorem c8_amended_no_option_flags (a b c d seq : Nat) (payload : List Nat) :
    ((assembleSteps [a, b, c, d] seq (concatIntended payload)).drop 8).take 8
        = List.replicate 8 0
    ∧ ((assembleSteps [a, b, c, d] seq (concatIntended payload)).drop 16).take 6
        = List.replicate 6 0
    ∧ (assembleSteps [a, b, c, d] seq (concatIntended payload)).getD 22 0 = 0
    ∧ (assembleSteps [a, b, c, d] seq (concatIntended payload)).getD 22 0 &&& 0b11 = 0
    ∧ (assembleSteps [a, b, c, d] seq (concatIntended payload)).getD 23 0 = seq % 256
    ∧ (discoverTag (assembleSteps [a, b, c, d] seq (concatIntended payload))).getD 22 0 = 3 := by
  rw [assembleSteps_explicit]
  refine ⟨rfl, rfl, by simp, by simp, by simp, by simp [discoverTag, orAt]⟩

/-- Claim C1 counterexample: three send calls at 0ms, 10ms and 20ms — the
calls at 0ms and 10ms are a pair issued less than 50ms apart, yet the
arguments of the 10ms call are never transmitted: the lodash throttle keeps
only the most recent pending call, so the delayed slot fires with the 20ms
call's arguments and the 10ms call is dropped, not delayed. -/
theorem c1_intermediate_call_dropped :
    (runThrottle sendWaitMs [(0, 0), (10, 1), (20, 2)]).invocations = [(0, 0), (50, 2)]
    ∧ ((runThrottle sendWaitMs [(0, 0), (10, 1), (20, 2)]).invocations.map Prod.snd).contains 1
        = false :=
  ⟨by decide, by decide⟩

/-- Claim C1 amended: for an isolated pair of send calls issued less than
50ms apart, the rate-limited transport delays the later call rather than
dropping it: the first transmits at once (leading edge) and the later
call's arguments transmit at the trailing edge exactly 50ms after the
first, preserving the original FIFO call order, so the two underlying
socket transmissions are at least 50ms apart.  (When further calls arrive
inside the same window, only the most recent call's arguments fire at the
trailing edge; the intermediate calls are coalesced away.) -/
theorem c1_amended_pair_delayed {α : Type} (t0 t1 : Nat) (a0 a1 : α)
    (h01 : t0 < t1) (h50 : t1 < t0 + 50) :
    (runThrottle sendWaitMs [(t0, a0), (t1, a1)]).invocations = [(t0, a0), (t0 + 50, a1)]
    ∧ 50 ≤ (t0 + 50) - t0
    ∧ sendWaitMs = 50 := by
  have hA : ¬ (t0 + 50 ≤ t1) := by omega
  have hB : ¬ (50 ≤ t1 - t0) := by omega
  have hC : ¬ (50 ≤ t0 + 50 - t1) := by omega
  have hD : 50 ≤ t0 + 50 - t0 := by omega
  refine ⟨?_, by omega, rfl⟩
  have e0 : runThrottle sendWaitMs [(t0, a0), (t1, a1)]
      = flushTimers 50 4 (debouncedCall 50 t1 a1 (fireTimersUpTo 50 4 t1
          (debouncedCall 50 t0 a0 (fireTimersUpTo 50 4 t0 (throttleInit (α := α)))))) := rfl
  have e1 : debouncedCall 50 t0 a0 (fireTimersUpTo 50 4 t0 (throttleInit (α := α)))
      = ⟨some t0, t0, none, some (t0 + 50), [(t0, a0)]⟩ := rfl
  have e2 : fireTimersUpTo 50 4 t1
        (⟨some t0, t0, none, some (t0 + 50), [(t0, a0)]⟩ : ThrottleState α)
      = ⟨some t0, t0, none, some (t0 + 50), [(t0, a0)]⟩ := by
    show (if t0 + 50 ≤ t1 then _ else _) = _
    rw [if_neg hA]
  have e3 : debouncedCall 50 t1 a1
        (⟨some t0, t0, none, some (t0 + 50), [(t0, a0)]⟩ : ThrottleState α)
      = ⟨some t1, t0, some a1, some (t0 + 50), [(t0, a0)]⟩ := by
    simp [debouncedCall, shouldInvoke, hB]
  have e4 : flushTimers 50 4
        (⟨some t1, t0, some a1, some (t0 + 50), [(t0, a0)]⟩ : ThrottleState α)
      = ⟨some t1, t0 + 50, none, none, [(t0, a0), (t0 + 50, a1)]⟩ := by
    show flushTimers 50 3
        (timerExpired 50 (t0 + 50)
          (⟨some t1, t0, some a1, some (t0 + 50), [(t0, a0)]⟩ : ThrottleState α)) = _
    have ht : timerExpired 50 (t0 + 50)
          (⟨some t1, t0, some a1, some (t0 + 50), [(t0, a0)]⟩ : ThrottleState α)
        = ⟨some t1, t0 + 50, none, none, [(t0, a0), (t0 + 50, a1)]⟩ := by
      simp [timerExpired, shouldInvoke, invokeFunc, hC, hD]
    rw [ht]
    rfl
  rw [e0, e1, e2, e3, e4]

/-- Claim C1 amended witness: sends at 0ms and 10ms transmit at 0ms and
50ms, in order. -/
theorem c1_amended_pair_delayed_witness :
    0 < 10 ∧ 10 < 0 + 50
    ∧ ((runThrottle sendWaitMs [((0 : Nat), (0 : Nat)), (10, 1)]).invocations
          = [(0, 0), (0 + 50, 1)]
      ∧ 50 ≤ (0 + 50) - 0
      ∧ sendWaitMs = 50) :=
  ⟨by decide, by decide, c1_amended_pair_delayed 0 10 0 1 (by decide) (by decide)⟩

end Xlif
